import Mathlib

/-!
# Verification of the OTP-vault core (crypto.rs, otp.rs, utils.rs)

A shallow embedding of the Rust sources of the password-protected OTP vault.
Byte strings are `List Nat` with every element below 256; 32-bit and 64-bit
machine words are `Nat` reduced modulo `2^32` / `2^64` exactly where the Rust
code wraps.  The SHA-1, SHA-256 and HMAC primitives (external crates `sha1`,
`sha2`, `hmac`) are embedded as the published algorithms those crates
implement, because the OTP engine's observable behaviour is defined through
them; Argon2 and AES-GCM are kept abstract (a key-derivation function
parameter, and an `Aead` record of encrypt/decrypt functions) since the
claims about `crypto.rs` concern only the container logic around them.
-/

/-! ## 32-bit word helpers -/

/-- `2^32`, the modulus of Rust `u32` arithmetic. -/
def M32 : Nat := 4294967296

/-- `2^64`, the modulus of Rust `u64` arithmetic. -/
def M64 : Nat := 18446744073709551616

/-- Left-rotate a 32-bit word (value assumed below `2^32`). -/
def rotl32 (x n : Nat) : Nat := ((x <<< n) % M32) ||| (x >>> (32 - n))

/-- Big-endian bytes (4) of a 32-bit word. -/
def w2b (x : Nat) : List Nat :=
  [(x >>> 24) &&& 255, (x >>> 16) &&& 255, (x >>> 8) &&& 255, x &&& 255]

/-- Big-endian bytes (8) of a `u64` value, as produced by `u64::to_be_bytes`. -/
def u64be (x : Nat) : List Nat :=
  let n := x % M64
  [(n >>> 56) &&& 255, (n >>> 48) &&& 255, (n >>> 40) &&& 255, (n >>> 32) &&& 255,
   (n >>> 24) &&& 255, (n >>> 16) &&& 255, (n >>> 8) &&& 255, n &&& 255]

/-- Fold big-endian bytes into a word. -/
def beWord (l : List Nat) : Nat := l.foldl (fun a b => a * 256 + b) 0

/-- Fuel-driven worker for `chunksOf` (structural, so it reduces in the
kernel); the fuel is an upper bound on the number of chunks. -/
def chunksOfFuel (n : Nat) : Nat → List Nat → List (List Nat)
  | _, [] => []
  | 0, _ => []
  | fuel + 1, l => if n = 0 then [] else l.take n :: chunksOfFuel n fuel (l.drop n)

/-- Split a byte list into chunks of `n` bytes (last chunk possibly short),
as Rust `slice::chunks`. -/
def chunksOf (n : Nat) (l : List Nat) : List (List Nat) := chunksOfFuel n l.length l

/-- Merkle–Damgård padding shared by SHA-1 and SHA-256: append `0x80`, zeros
to 56 mod 64, then the 64-bit big-endian bit length. -/
def mdPad (msg : List Nat) : List Nat :=
  msg ++ 128 :: List.replicate ((120 - ((msg.length + 1) % 64)) % 64) 0
      ++ u64be (8 * msg.length)

/-! ## SHA-1 (the `sha1` crate, FIPS 180-4) -/

/-- SHA-1 round constant for round `i`. -/
def sha1K (i : Nat) : Nat :=
  if i < 20 then 0x5A827999
  else if i < 40 then 0x6ED9EBA1
  else if i < 60 then 0x8F1BBCDC
  else 0xCA62C1D6

/-- SHA-1 round function for round `i`. -/
def sha1F (i b c d : Nat) : Nat :=
  if i < 20 then (b &&& c) ||| ((b ^^^ 0xFFFFFFFF) &&& d)
  else if i < 40 then b ^^^ c ^^^ d
  else if i < 60 then (b &&& c) ||| (b &&& d) ||| (c &&& d)
  else b ^^^ c ^^^ d

/-- Extend the 16 message words of one block to the 80-word schedule. -/
def sha1Sched (ws : List Nat) : List Nat :=
  (List.range 64).foldl
    (fun acc _ =>
      let i := acc.length
      acc ++ [rotl32 (acc.getD (i - 3) 0 ^^^ acc.getD (i - 8) 0 ^^^
                      acc.getD (i - 14) 0 ^^^ acc.getD (i - 16) 0) 1])
    ws

/-- The SHA-1 working state: five 32-bit words. -/
def Sha1St : Type := Nat × Nat × Nat × Nat × Nat

/-- One SHA-1 compression round. -/
def sha1Round (st : Sha1St) (iw : Nat × Nat) : Sha1St :=
  let (a, b, c, d, e) := st
  let (i, w) := iw
  let t := (rotl32 a 5 + sha1F i b c d + e + sha1K i + w) % M32
  (t, a, rotl32 b 30, c, d)

/-- Compress one 64-byte block into the running state. -/
def sha1Compress (h : Sha1St) (block : List Nat) : Sha1St :=
  let ws := sha1Sched ((chunksOf 4 block).map beWord)
  let (a, b, c, d, e) := ws.enum.foldl sha1Round h
  let (h0, h1, h2, h3, h4) := h
  ((h0 + a) % M32, (h1 + b) % M32, (h2 + c) % M32, (h3 + d) % M32, (h4 + e) % M32)

/-- Serialize the final SHA-1 state to the 20 digest bytes. -/
def sha1Digest (st : Sha1St) : List Nat :=
  w2b st.1 ++ w2b st.2.1 ++ w2b st.2.2.1 ++ w2b st.2.2.2.1 ++ w2b st.2.2.2.2

/-- SHA-1 of a byte string. -/
def sha1 (msg : List Nat) : List Nat :=
  sha1Digest ((chunksOf 64 (mdPad msg)).foldl sha1Compress
    (0x67452301, 0xEFCDAB89, 0x98BADCFE, 0x10325476, 0xC3D2E1F0))

/-- HMAC-SHA1 (`hmac` crate, FIPS 198-1): block size 64, keys longer than a
block are first hashed; any key length is accepted, so `new_from_slice`
never fails for HMAC. -/
def hmacSha1 (key msg : List Nat) : List Nat :=
  let k0 := if key.length > 64 then sha1 key else key
  let kp := k0 ++ List.replicate (64 - k0.length) 0
  sha1 ((kp.map (fun b => b ^^^ 0x5c)) ++ sha1 ((kp.map (fun b => b ^^^ 0x36)) ++ msg))

/-! ## SHA-256 (the `sha2` crate, FIPS 180-4) -/

/-- The 64 SHA-256 round constants of FIPS 180-4, in decimal. -/
def sha256K : List Nat :=
  [1116352408, 1899447441, 3049323471, 3921009573, 961987163, 1508970993,
   2453635748, 2870763221, 3624381080, 310598401, 607225278, 1426881987,
   1925078388, 2162078206, 2614888103, 3248222580, 3835390401, 4022224774,
   264347078, 604807628, 770255983, 1249150122, 1555081692, 1996064986,
   2554220882, 2821834349, 2952996808, 3210313671, 3336571891, 3584528711,
   113926993, 338241895, 666307205, 773529912, 1294757372, 1396182291,
   1695183700, 1986661051, 2177026350, 2456956037, 2730485921, 2820302411,
   3259730800, 3345764771, 3516065817, 3600352804, 4094571909, 275423344,
   430227734, 506948616, 659060556, 883997877, 958139571, 1322822218,
   1537002063, 1747873779, 1955562222, 2024104815, 2227730452, 2361852424,
   2428436474, 2756734187, 3204031479, 3329325298]

/-- Right-rotate a 32-bit word. -/
def rotr32 (x n : Nat) : Nat := (x >>> n) ||| ((x <<< (32 - n)) % M32)

/-- SHA-256 small sigma 0. -/
def ssig0 (x : Nat) : Nat := rotr32 x 7 ^^^ rotr32 x 18 ^^^ (x >>> 3)

/-- SHA-256 small sigma 1. -/
def ssig1 (x : Nat) : Nat := rotr32 x 17 ^^^ rotr32 x 19 ^^^ (x >>> 10)

/-- SHA-256 big sigma 0. -/
def bsig0 (x : Nat) : Nat := rotr32 x 2 ^^^ rotr32 x 13 ^^^ rotr32 x 22

/-- SHA-256 big sigma 1. -/
def bsig1 (x : Nat) : Nat := rotr32 x 6 ^^^ rotr32 x 11 ^^^ rotr32 x 25

/-- Extend the 16 message words of one block to the 64-word SHA-256 schedule. -/
def sha256Sched (ws : List Nat) : List Nat :=
  (List.range 48).foldl
    (fun acc _ =>
      let i := acc.length
      acc ++ [(ssig1 (acc.getD (i - 2) 0) + acc.getD (i - 7) 0 +
               ssig0 (acc.getD (i - 15) 0) + acc.getD (i - 16) 0) % M32])
    ws

/-- The SHA-256 working state: eight 32-bit words. -/
def Sha256St : Type := Nat × Nat × Nat × Nat × Nat × Nat × Nat × Nat

/-- One SHA-256 compression round, consuming one (schedule word, constant) pair. -/
def sha256Round (st : Sha256St) (wk : Nat × Nat) : Sha256St :=
  let (a, b, c, d, e, f, g, h) := st
  let (w, k) := wk
  let t1 := (h + bsig1 e + ((e &&& f) ^^^ ((e ^^^ 0xFFFFFFFF) &&& g)) + k + w) % M32
  let t2 := (bsig0 a + ((a &&& b) ^^^ (a &&& c) ^^^ (b &&& c))) % M32
  ((t1 + t2) % M32, a, b, c, (d + t1) % M32, e, f, g)

/-- Compress one 64-byte block into the running SHA-256 state. -/
def sha256Compress (h : Sha256St) (block : List Nat) : Sha256St :=
  let ws := sha256Sched ((chunksOf 4 block).map beWord)
  let (a, b, c, d, e, f, g, hh) := (ws.zip sha256K).foldl sha256Round h
  let (h0, h1, h2, h3, h4, h5, h6, h7) := h
  ((h0 + a) % M32, (h1 + b) % M32, (h2 + c) % M32, (h3 + d) % M32,
   (h4 + e) % M32, (h5 + f) % M32, (h6 + g) % M32, (h7 + hh) % M32)

/-- Serialize the final SHA-256 state to the 32 digest bytes. -/
def sha256Digest (st : Sha256St) : List Nat :=
  w2b st.1 ++ w2b st.2.1 ++ w2b st.2.2.1 ++ w2b st.2.2.2.1 ++
  w2b st.2.2.2.2.1 ++ w2b st.2.2.2.2.2.1 ++ w2b st.2.2.2.2.2.2.1 ++ w2b st.2.2.2.2.2.2.2

/-- SHA-256 of a byte string. -/
def sha256 (msg : List Nat) : List Nat :=
  sha256Digest ((chunksOf 64 (mdPad msg)).foldl sha256Compress
    (1779033703, 3144134277, 1013904242, 2773480762,
     1359893119, 2600822924, 528734635, 1541459225))

/-! ## Base32 decoding (the `base32` crate, `Alphabet::RFC4648 { padding: false }`)

The crate's `decode`: reject non-ASCII input; note how many trailing `=`
(at most 6) to drop from the length count; map each character through the
inverse-alphabet table after ASCII-uppercasing and wrapping-subtracting
`'0'`; regroup each 8-character chunk (zero-filled when short) into 5 bytes
with `u8`-wrapping shifts; truncate to `unpadded_len * 5 / 8` bytes. -/

/-- The crate's `RFC4648_INV_ALPHABET` table, indexed by `char - '0'`;
`none` is the table's `-1` (invalid character). Index 13 (`'='`) maps to 0. -/
def b32Table : List (Option Nat) :=
  [none, none, some 26, some 27, some 28, some 29, some 30, some 31, none, none,
   none, none, none, some 0, none, none, none,
   some 0, some 1, some 2, some 3, some 4, some 5, some 6, some 7, some 8,
   some 9, some 10, some 11, some 12, some 13, some 14, some 15, some 16,
   some 17, some 18, some 19, some 20, some 21, some 22, some 23, some 24, some 25]

/-- Value of one base32 character: uppercase, wrapping-subtract `'0'` as a
byte, look up the inverse table (out-of-range indices are invalid). -/
def b32Val (c : Char) : Option Nat :=
  (b32Table.getD ((c.toUpper.toNat + 208) % 256) none)

/-- Regroup one chunk of up to eight 5-bit values (zero-filled to 8, as the
crate's `buf = [0u8; 8]`) into 5 bytes; each shifted term wraps as `u8`. -/
def b32Chunk (buf : List Nat) : List Nat :=
  let g := fun i => buf.getD i 0
  [((g 0 <<< 3) % 256) ||| (g 1 >>> 2),
   ((g 1 <<< 6) % 256) ||| ((g 2 <<< 1) % 256) ||| (g 3 >>> 4),
   ((g 3 <<< 4) % 256) ||| (g 4 >>> 1),
   ((g 4 <<< 7) % 256) ||| ((g 5 <<< 2) % 256) ||| (g 6 >>> 3),
   ((g 6 <<< 5) % 256) ||| g 7]

/-- Number of trailing `'='` characters, capped at 6 (the crate's unpad loop). -/
def b32TrailingPad (cs : List Char) : Nat :=
  min ((cs.reverse.takeWhile (fun c => c = '=')).length) 6

/-- `base32::decode(Alphabet::RFC4648 { padding: false }, s)`. -/
def base32Decode (s : String) : Option (List Nat) :=
  let cs := s.data
  if cs.any (fun c => 128 ≤ c.toNat) then none
  else
    match cs.mapM b32Val with
    | none => none
    | some vals =>
      let unpadded := cs.length - b32TrailingPad cs
      some ((((chunksOf 8 vals).map b32Chunk).flatten).take (unpadded * 5 / 8))

/-! ## Digit rendering (Rust `format!` with `{:06}`, `{:x}`, `{:06x}`) -/

/-- One hexadecimal digit, lowercase. -/
def hexDigit (d : Nat) : Char :=
  if d < 10 then Char.ofNat (48 + d) else Char.ofNat (87 + d)

/-- Lowercase hexadecimal rendering of a `Nat`, no padding (`{:x}`). -/
def hexRep (n : Nat) : List Char :=
  if _h : n < 16 then [hexDigit n]
  else hexRep (n / 16) ++ [hexDigit (n % 16)]
termination_by n
decreasing_by exact Nat.div_lt_self (by omega) (by omega)

/-- Fuel-driven worker for `decRep` (structural, so it reduces in the
kernel); any fuel above the digit count gives the digits. -/
def decRepFuel : Nat → Nat → List Char
  | 0, _ => []
  | fuel + 1, n =>
    if n < 10 then [Char.ofNat (48 + n)]
    else decRepFuel fuel (n / 10) ++ [Char.ofNat (48 + n % 10)]

/-- Decimal rendering of a `Nat`, no padding. -/
def decRep (n : Nat) : List Char := decRepFuel (n + 1) n

/-- Rust `format!("{:06}", n)`: decimal, left-padded with zeros to width 6. -/
def decPad6 (n : Nat) : String :=
  String.mk (List.replicate (6 - (decRep n).length) '0' ++ decRep n)

/-- Rust `format!("{:06x}", n)`: lowercase hex, left-padded with zeros to width 6. -/
def hexPad6 (n : Nat) : String :=
  String.mk (List.replicate (6 - (hexRep n).length) '0' ++ hexRep n)

/-- UTF-8 encoding of one character (`str::as_bytes` per scalar value). -/
def utf8Char (c : Char) : List Nat :=
  let n := c.toNat
  if n < 128 then [n]
  else if n < 2048 then [192 ||| (n >>> 6), 128 ||| (n &&& 63)]
  else if n < 65536 then
    [224 ||| (n >>> 12), 128 ||| ((n >>> 6) &&& 63), 128 ||| (n &&& 63)]
  else
    [240 ||| (n >>> 18), 128 ||| ((n >>> 12) &&& 63),
     128 ||| ((n >>> 6) &&& 63), 128 ||| (n &&& 63)]

/-- UTF-8 bytes of a string (Rust `str::as_bytes`). -/
def utf8Bytes (s : String) : List Nat := (s.data.map utf8Char).flatten

/-! ## Data model (models.rs) -/

/-- `AuthType` (models.rs): the three supported algorithm variants. -/
inductive AuthType where
  | Totp
  | Hotp
  | Motp
deriving DecidableEq, Repr

/-- `Secret` (models.rs): one stored secret record. `counter` is a `Nat`
standing for the Rust `Option<u64>` payload. -/
structure Secret where
  name : String
  secret : String
  auth_type : AuthType
  counter : Option Nat
deriving DecidableEq, Repr

/-! ## OTP engine (otp.rs)

Wall-clock reads (`SystemTime::now().duration_since(UNIX_EPOCH)`) become
explicit `Nat` parameters, one per read the Rust code performs, in source
order; with the clock supplied as data, the `TimeSourceError` path
(pre-epoch clock) cannot arise in the embedding.  Error values mirror the
distinct `anyhow!` messages. -/

/-- The distinct error values `otp.rs` can produce. -/
inductive OtpError where
  /-- "系统时间可能不同步，请检查时间设置" — the clock-skew guard. -/
  | clockSkew
  /-- "无效的 base32 编码" — secret is not valid base32. -/
  | invalidBase32
deriving DecidableEq, Repr

/-- `check_time_sync` (otp.rs:14): read the clock twice (`now`, then
`current_time`), fail when the two readings differ by more than 5 minutes. -/
def check_time_sync (now current_time : Nat) : Except OtpError Unit :=
  let time_window := 5 * 60
  let time_diff := if current_time > now then current_time - now else now - current_time
  if time_diff > time_window then Except.error OtpError.clockSkew else Except.ok ()

/-- `decode_secret` (otp.rs:39): base32-decode the seed text. -/
def decode_secret (secret : String) : Except OtpError (List Nat) :=
  match base32Decode secret with
  | some d => Except.ok d
  | none => Except.error OtpError.invalidBase32

/-- `compute_otp_code` (otp.rs:45): HMAC-SHA1 then RFC 4226 dynamic
truncation and `format!("{:06}", code % 1_000_000)`.  Total: HMAC accepts
every key length, and C8 shows the four indexed reads are in bounds, so the
`getD` defaults are never taken. -/
def compute_otp_code (decoded_secret input_data : List Nat) : String :=
  let result := hmacSha1 decoded_secret input_data
  let offset := (result.getD 19 0) &&& 0xf
  let code := (((result.getD offset 0) &&& 0x7f) <<< 24) |||
    ((result.getD (offset + 1) 0) <<< 16) |||
    ((result.getD (offset + 2) 0) <<< 8) |||
    (result.getD (offset + 3) 0)
  decPad6 (code % 1000000)

/-- `generate_totp` (otp.rs:59): clock-skew guard on two reads (`t1`, `t2`),
then decode the seed and run the HOTP truncation on the 30-second time step
of a third read (`now`). -/
def generate_totp (secret : String) (t1 t2 now : Nat) : Except OtpError String :=
  match check_time_sync t1 t2 with
  | Except.error e => Except.error e
  | Except.ok _ =>
    match decode_secret secret with
    | Except.error e => Except.error e
    | Except.ok decoded =>
      let timestamp := now / 30
      Except.ok (compute_otp_code decoded (u64be timestamp))

/-- `generate_hotp` (otp.rs:74): decode the seed, truncate over the 8-byte
big-endian counter. -/
def generate_hotp (secret : String) (counter : Nat) : Except OtpError String :=
  match decode_secret secret with
  | Except.error e => Except.error e
  | Except.ok decoded => Except.ok (compute_otp_code decoded (u64be counter))

/-- `generate_motp` (otp.rs:80): SHA-256 of the seed's raw UTF-8 bytes
followed by the lowercase-hex 10-second time step, first 3 digest bytes
folded big-endian, rendered `{:06x}`.  The seed is never base32-decoded. -/
def generate_motp (secret : String) (now : Nat) : Except OtpError String :=
  let time := now / 10
  let time_str := String.mk (hexRep time)
  let result := sha256 (utf8Bytes secret ++ utf8Bytes time_str)
  Except.ok (hexPad6 ((result.take 3).foldl (fun acc x => (acc <<< 8) ||| x) 0))

/-- `generate_code` (otp.rs:96): dispatch on the record's algorithm; a
missing HOTP counter is replaced by 0 (`unwrap_or(0)`). -/
def generate_code (secret : Secret) (t1 t2 now : Nat) : Except OtpError String :=
  match secret.auth_type with
  | AuthType.Totp => generate_totp secret.secret t1 t2 now
  | AuthType.Hotp =>
    let counter := secret.counter.getD 0
    generate_hotp secret.secret counter
  | AuthType.Motp => generate_motp secret.secret now

/-! ## Authenticated container codec (crypto.rs)

Argon2 key derivation is abstracted as a total deterministic function
parameter `kdf` (the spec fixes it as deterministic in (password, salt);
its only failure mode, invalid parameters, cannot occur for the constants
the code passes).  AES-256-GCM is abstracted as an `Aead` record: `newOk`
is whether `Aes256Gcm::new_from_slice(key)` succeeds, and `enc`/`dec` take
(key, nonce, aad, input).  The random salt and nonce are parameters.

Each codec function returns its Rust result paired with a `Bool` recording
whether `secure_erase(&mut key)` was executed on that control path before
returning: in the source the erase sits after the AEAD call and before the
`Ok`/version checks, so every `?`-style early return from cipher
construction or the AEAD operation skips it. -/

/-- The distinct error values `crypto.rs` can produce. -/
inductive CryptoError where
  /-- `Aes256Gcm::new_from_slice` failed (invalid key length). -/
  | cipherInit
  /-- "加密失败" — AEAD encryption failed. -/
  | encryptFailed
  /-- "解密失败，密码可能不正确或数据已被篡改" — AEAD authentication failed. -/
  | decryptFailed
  /-- "解密后的数据为空" — decrypted plaintext is empty. -/
  | emptyPlaintext
  /-- "不支持的数据格式版本。请升级到最新版本。" — version tag is not the supported one. -/
  | unsupportedVersion
deriving DecidableEq, Repr

/-- `EncryptedData` (models.rs): the on-disk container triple. -/
structure EncryptedData where
  nonce : List Nat
  ciphertext : List Nat
  salt : List Nat
deriving DecidableEq, Repr

/-- The abstract AEAD cipher standing for `Aes256Gcm`. -/
structure Aead where
  newOk : List Nat → Bool
  enc : List Nat → List Nat → List Nat → List Nat → Option (List Nat)
  dec : List Nat → List Nat → List Nat → List Nat → Option (List Nat)

/-- `CURRENT_DATA_FORMAT_VERSION` (crypto.rs:21). -/
def CURRENT_DATA_FORMAT_VERSION : Nat := 1

/-- `secure_erase` (crypto.rs:24): overwrite a byte buffer with zeros. -/
def secure_erase (data : List Nat) : List Nat := data.map (fun _ => 0)

/-- `encrypt_data` (crypto.rs:55): derive the key, build the cipher, prepend
the version byte, AEAD-encrypt with the salt as associated data, erase the
key, return the container.  Second component: was the key erased on this
path? -/
def encrypt_data (A : Aead) (kdf : String → List Nat → List Nat)
    (salt nonce : List Nat) (data : List Nat) (password : String) :
    Except CryptoError EncryptedData × Bool :=
  let key := kdf password salt
  if A.newOk key then
    let versioned_data := CURRENT_DATA_FORMAT_VERSION :: data
    match A.enc key nonce salt versioned_data with
    | some ciphertext => (Except.ok ⟨nonce, ciphertext, salt⟩, true)
    | none => (Except.error CryptoError.encryptFailed, false)
  else (Except.error CryptoError.cipherInit, false)

/-- `decrypt_data` (crypto.rs:88): derive the key from the stored salt,
AEAD-decrypt with the salt as associated data, erase the key, then check
non-emptiness and the version tag and strip the tag.  Second component: was
the key erased on this path?  (The erase at crypto.rs:104 precedes the
version checks, so those error paths do erase; the AEAD failure return at
crypto.rs:101 does not.) -/
def decrypt_data (A : Aead) (kdf : String → List Nat → List Nat)
    (encrypted : EncryptedData) (password : String) :
    Except CryptoError (List Nat) × Bool :=
  let key := kdf password encrypted.salt
  if A.newOk key then
    match A.dec key encrypted.nonce encrypted.salt encrypted.ciphertext with
    | none => (Except.error CryptoError.decryptFailed, false)
    | some plaintext =>
      if plaintext.isEmpty then (Except.error CryptoError.emptyPlaintext, true)
      else
        let version := plaintext.headD 0
        if version ≠ CURRENT_DATA_FORMAT_VERSION then
          (Except.error CryptoError.unsupportedVersion, true)
        else (Except.ok plaintext.tail, true)
  else (Except.error CryptoError.cipherInit, false)

/-! ## otpauth URL parsing (utils.rs)

`Url::parse` (the `url` crate) is external; its output is modeled as the
record of the four pieces `parse_otpauth_url` reads — scheme, host, path,
and decoded query pairs — and the function embeds everything `utils.rs`
does with them (utils.rs:53-102). -/

/-- The pieces of a parsed URL that `parse_otpauth_url` consumes. -/
structure UrlParts where
  scheme : String
  host : Option String
  path : String
  query : List (String × String)

/-- The distinct error values `parse_otpauth_url` can produce. -/
inductive ParseError where
  /-- "不是有效的 otpauth URL" — scheme is not `otpauth`. -/
  | badScheme
  /-- "URL 缺少验证类型" — no host. -/
  | missingAuthType
  /-- "不支持的验证类型" — host is not totp/hotp/motp. -/
  | unsupportedAuthType
  /-- "URL 缺少服务名称" — empty path. -/
  | missingName
  /-- "URL 缺少 secret 参数" — no `secret` query parameter. -/
  | missingSecret
  /-- "密钥不能为空" — `secret` parameter is empty. -/
  | emptySecret
  /-- "HOTP URL 缺少 counter 参数" — HOTP without `counter`. -/
  | missingCounter
  /-- "counter 参数必须是有效的数字" — `counter` does not parse as `u64`. -/
  | badCounter
deriving DecidableEq, Repr

/-- Rust `str::to_lowercase` on the host string (character-wise lowering;
the hosts compared against are ASCII). -/
def strToLower (s : String) : String := String.mk (s.data.map Char.toLower)

/-- `HashMap`-collected query lookup: the last pair with the given key wins. -/
def getParam (query : List (String × String)) (k : String) : Option String :=
  ((query.filter (fun p => p.1 = k)).getLast?).map (fun p => p.2)

/-- Rust `str::parse::<u64>`: an optional leading `+`, then one or more
ASCII digits, value below `2^64`. -/
def parseU64 (s : String) : Option Nat :=
  let cs := s.data
  let ds := if cs.headD ' ' = '+' then cs.tail else cs
  if ds = [] ∨ ¬ (ds.all Char.isDigit) then none
  else
    let v := ds.foldl (fun a c => a * 10 + (c.toNat - 48)) 0
    if v < M64 then some v else none

/-- `parse_otpauth_url` (utils.rs:50): validate the scheme, map the
lowercased host to an `AuthType`, take the path (leading slashes trimmed)
as the name, require a non-empty `secret` parameter, and require a numeric
`counter` parameter exactly when the type is HOTP. -/
def parse_otpauth_url (u : UrlParts) : Except ParseError Secret :=
  if u.scheme ≠ "otpauth" then Except.error ParseError.badScheme
  else
    match u.host with
    | none => Except.error ParseError.missingAuthType
    | some auth_type_str =>
      let auth_type? : Option AuthType :=
        if strToLower auth_type_str = "totp" then some AuthType.Totp
        else if strToLower auth_type_str = "hotp" then some AuthType.Hotp
        else if strToLower auth_type_str = "motp" then some AuthType.Motp
        else none
      match auth_type? with
      | none => Except.error ParseError.unsupportedAuthType
      | some auth_type =>
        let path := u.path.data.dropWhile (fun c => c = '/')
        if path.isEmpty then Except.error ParseError.missingName
        else
          let name := String.mk path
          match getParam u.query "secret" with
          | none => Except.error ParseError.missingSecret
          | some secret =>
            if secret = "" then Except.error ParseError.emptySecret
            else
              if auth_type = AuthType.Hotp then
                match getParam u.query "counter" with
                | none => Except.error ParseError.missingCounter
                | some cs =>
                  match parseU64 cs with
                  | none => Except.error ParseError.badCounter
                  | some c => Except.ok ⟨name, secret, auth_type, some c⟩
              else Except.ok ⟨name, secret, auth_type, none⟩

/-! ## Helper lemmas -/

/-- A serialized SHA-1 state is exactly 20 bytes. -/
theorem sha1Digest_length (st : Sha1St) : (sha1Digest st).length = 20 := by
  simp [sha1Digest, w2b]

/-- SHA-1 digests are 20 bytes for every input. -/
theorem sha1_length (msg : List Nat) : (sha1 msg).length = 20 :=
  sha1Digest_length _

/-- HMAC-SHA1 digests are 20 bytes for every key and message. -/
theorem hmacSha1_length (key msg : List Nat) : (hmacSha1 key msg).length = 20 :=
  sha1_length _

/-- The first three bytes of every SHA-256 digest exist and are below 256. -/
theorem sha256_shape (msg : List Nat) :
    ∃ b0 b1 b2 rest, sha256 msg = b0 :: b1 :: b2 :: rest ∧
      b0 < 256 ∧ b1 < 256 ∧ b2 < 256 := by
  refine ⟨_, _, _, _, rfl, ?_, ?_, ?_⟩ <;>
    exact Nat.lt_succ_of_le Nat.and_le_right

/-- Shifting left by a byte then or-ing in a byte is base-256 positional
composition. -/
theorem shiftLeft8_or_eq (x y : Nat) (hy : y < 256) :
    (x <<< 8) ||| y = x * 256 + y := by
  have h256 : (2 : Nat) ^ 8 = 256 := by norm_num
  rw [Nat.shiftLeft_eq, h256, Nat.mul_comm,
    ← Nat.mul_add_lt_is_or (by omega : y < 2 ^ 8) x, h256]

/-- `lowercaseHexDigits` is the character set `{:x}` formatting can emit. -/
def lowercaseHexDigits : List Char := "0123456789abcdef".data

/-- Each single hex digit below 16 renders inside the lowercase alphabet. -/
theorem hexDigit_mem : ∀ d < 16, hexDigit d ∈ lowercaseHexDigits := by decide

/-- Every character `{:x}` emits is a lowercase hex digit. -/
theorem hexRep_mem (n : Nat) : ∀ c ∈ hexRep n, c ∈ lowercaseHexDigits := by
  induction n using Nat.strong_induction_on with
  | _ n ih =>
    unfold hexRep
    split
    · intro c hc
      rw [List.mem_singleton] at hc
      exact hc ▸ hexDigit_mem n (by omega)
    · intro c hc
      rw [List.mem_append] at hc
      rcases hc with hc | hc
      · exact ih (n / 16) (Nat.div_lt_self (by omega) (by omega)) c hc
      · rw [List.mem_singleton] at hc
        exact hc ▸ hexDigit_mem (n % 16) (Nat.mod_lt _ (by omega))

/-- `{:x}` emits at most `k` digits for values below `16^k`. -/
theorem hexRep_length_le : ∀ k n, n < 16 ^ k → 1 ≤ k → (hexRep n).length ≤ k := by
  intro k
  induction k with
  | zero => omega
  | succ k ih =>
    intro n hn _
    unfold hexRep
    split
    · simp
    · rename_i h16
      have hdiv : n / 16 < 16 ^ k := by
        rw [Nat.div_lt_iff_lt_mul (by omega : 0 < 16)]
        calc n < 16 ^ (k + 1) := hn
          _ = 16 ^ k * 16 := by rw [Nat.pow_succ]
      have hk1 : 1 ≤ k := by
        rcases Nat.eq_zero_or_pos k with h0 | h0
        · subst h0; simp at hn; omega
        · exact h0
      have := ih (n / 16) hdiv hk1
      simp only [List.length_append, List.length_singleton]
      omega

/-- `{:06x}` renders values below `16^6` as exactly six characters. -/
theorem hexPad6_length {v : Nat} (hv : v < 16 ^ 6) : (hexPad6 v).length = 6 := by
  have h6 := hexRep_length_le 6 v hv (by omega)
  show (List.replicate (6 - (hexRep v).length) '0' ++ hexRep v).length = 6
  simp only [List.length_append, List.length_replicate]
  omega

/-- Every character `{:06x}` emits is a lowercase hex digit. -/
theorem hexPad6_mem {v : Nat} : ∀ c ∈ (hexPad6 v).data, c ∈ lowercaseHexDigits := by
  intro c hc
  rw [show (hexPad6 v).data = List.replicate (6 - (hexRep v).length) '0' ++ hexRep v from rfl,
    List.mem_append] at hc
  rcases hc with hc | hc
  · rw [List.eq_of_mem_replicate hc]
    decide
  · exact hexRep_mem v c hc

/-! ## The claims -/

/-- C7: `generate_totp` runs the clock sanity check first: with the two
clock readings more than 300 seconds apart it fails with the clock-skew
error; within the window the check succeeds and generation proceeds to
decode the seed and truncate over the 30-second time step. -/
theorem generate_totp_clock_guard (s : String) (t1 t2 now : Nat) :
    (300 < (if t2 > t1 then t2 - t1 else t1 - t2) →
      generate_totp s t1 t2 now = Except.error OtpError.clockSkew) ∧
    ((if t2 > t1 then t2 - t1 else t1 - t2) ≤ 300 →
      check_time_sync t1 t2 = Except.ok () ∧
      generate_totp s t1 t2 now =
        match decode_secret s with
        | Except.error e => Except.error e
        | Except.ok decoded => Except.ok (compute_otp_code decoded (u64be (now / 30)))) := by
  have hsync : check_time_sync t1 t2 =
      if 300 < (if t2 > t1 then t2 - t1 else t1 - t2) then
        Except.error OtpError.clockSkew
      else Except.ok () := by
    unfold check_time_sync
    norm_num
  constructor
  · intro h
    unfold generate_totp
    rw [hsync, if_pos h]
  · intro h
    have hok : check_time_sync t1 t2 = Except.ok () := by
      rw [hsync, if_neg (by omega)]
    refine ⟨hok, ?_⟩
    unfold generate_totp
    rw [hok]

/-- C7 witness: readings 301 apart are rejected, readings 300 apart pass. -/
theorem generate_totp_clock_guard_witness :
    generate_totp "A" 0 301 0 = Except.error OtpError.clockSkew ∧
    check_time_sync 0 300 = Except.ok () :=
  ⟨(generate_totp_clock_guard "A" 0 301 0).1 (by decide),
   ((generate_totp_clock_guard "A" 0 300 0).2 (by decide)).1⟩

/-- C8: dynamic truncation stays inside the digest: the HMAC-SHA1 output
has exactly 20 bytes, the offset (low nibble of byte 19) is at most 15, so
all four reads at `offset .. offset+3` are in bounds. -/
theorem compute_otp_code_truncation_in_bounds (key msg : List Nat) :
    (hmacSha1 key msg).length = 20 ∧
    ((hmacSha1 key msg).getD 19 0) &&& 0xf ≤ 15 ∧
    (((hmacSha1 key msg).getD 19 0) &&& 0xf) + 3 < (hmacSha1 key msg).length := by
  refine ⟨hmacSha1_length key msg, Nat.and_le_right, ?_⟩
  rw [hmacSha1_length key msg]
  have : ((hmacSha1 key msg).getD 19 0) &&& 0xf ≤ 15 := Nat.and_le_right
  omega

/-- C9: `generate_code` on a HOTP record without a counter substitutes 0
(`unwrap_or(0)`) instead of failing. -/
theorem generate_code_hotp_missing_counter (s : Secret) (t1 t2 now : Nat)
    (htype : s.auth_type = AuthType.Hotp) (hctr : s.counter = none) :
    generate_code s t1 t2 now = generate_hotp s.secret 0 := by
  unfold generate_code
  rw [htype, hctr]
  rfl

/-- C9 witness: a concrete counter-less HOTP record produces
`generate_hotp(secret, 0)`. -/
theorem generate_code_hotp_missing_counter_witness :
    generate_code ⟨"gh", "JBSWY3DP", AuthType.Hotp, none⟩ 0 0 0 =
      generate_hotp "JBSWY3DP" 0 :=
  generate_code_hotp_missing_counter ⟨"gh", "JBSWY3DP", AuthType.Hotp, none⟩ 0 0 0 rfl rfl

/-- C10: `generate_motp` hashes the seed text directly and never base32
decodes, so it succeeds on every seed string, while `generate_hotp` (and
`generate_totp`, via the same `decode_secret`) rejects a seed that is not
valid base32, such as `"1"`. -/
theorem generate_motp_never_decodes (s : String) (now c : Nat) :
    (∃ code, generate_motp s now = Except.ok code) ∧
    base32Decode "1" = none ∧
    generate_hotp "1" c = Except.error OtpError.invalidBase32 :=
  ⟨⟨_, rfl⟩, rfl, rfl⟩

/-- The RFC 6238 test seed decoded: the 20 ASCII bytes of
"12345678901234567890" (the seed string is its unpadded base32). -/
def rfcSeedKey : List Nat :=
  [49, 50, 51, 52, 53, 54, 55, 56, 57, 48, 49, 50, 51, 52, 53, 54, 55, 56, 57, 48]

/-- The RFC seed base32-decodes to the RFC key bytes. -/
theorem decode_rfc_seed :
    decode_secret "GEZDGNBVGY3TQOJQGEZDGNBVGY3TQOJQ" = Except.ok rfcSeedKey := rfl

/-- With both clock reads equal the skew guard passes, so `generate_totp`
reduces to decode-then-truncate. -/
theorem generate_totp_same_reads (s : String) (t now : Nat) :
    generate_totp s t t now =
      match decode_secret s with
      | Except.error e => Except.error e
      | Except.ok decoded => Except.ok (compute_otp_code decoded (u64be (now / 30))) := by
  have hc : check_time_sync t t = Except.ok () := by
    unfold check_time_sync
    simp
  unfold generate_totp
  rw [hc]

set_option maxRecDepth 100000 in
set_option maxHeartbeats 1000000 in
/-- RFC 6238 vector T=59 (time step 1): published code 94287082. -/
theorem totp_code_t59 : compute_otp_code rfcSeedKey (u64be (59 / 30)) = "287082" := rfl

set_option maxRecDepth 100000 in
set_option maxHeartbeats 1000000 in
/-- RFC 6238 vector T=1111111109: published code 07081804. -/
theorem totp_code_t1111111109 :
    compute_otp_code rfcSeedKey (u64be (1111111109 / 30)) = "081804" := rfl

set_option maxRecDepth 100000 in
set_option maxHeartbeats 1000000 in
/-- RFC 6238 vector T=1111111111: published code 14050471. -/
theorem totp_code_t1111111111 :
    compute_otp_code rfcSeedKey (u64be (1111111111 / 30)) = "050471" := rfl

set_option maxRecDepth 100000 in
set_option maxHeartbeats 1000000 in
/-- RFC 6238 vector T=1234567890: published code 89005924. -/
theorem totp_code_t1234567890 :
    compute_otp_code rfcSeedKey (u64be (1234567890 / 30)) = "005924" := rfl

set_option maxRecDepth 100000 in
set_option maxHeartbeats 1000000 in
/-- RFC 6238 vector T=2000000000: published code 69279037. -/
theorem totp_code_t2000000000 :
    compute_otp_code rfcSeedKey (u64be (2000000000 / 30)) = "279037" := rfl

set_option maxRecDepth 100000 in
set_option maxHeartbeats 1000000 in
/-- RFC 6238 vector T=20000000000: published code 65353130. -/
theorem totp_code_t20000000000 :
    compute_otp_code rfcSeedKey (u64be (20000000000 / 30)) = "353130" := rfl

/-- C3: the RFC 6238 known-answer vectors for SHA-1, with the RFC's seed
(base32 of ASCII "12345678901234567890") and both clock reads equal to the
vector time: the published 8-digit codes 94287082, 07081804, 14050471,
89005924, 69279037, 65353130 reduced to their 6 low digits. -/
theorem generate_totp_rfc6238_vectors :
    generate_totp "GEZDGNBVGY3TQOJQGEZDGNBVGY3TQOJQ" 59 59 59 = Except.ok "287082" ∧
    generate_totp "GEZDGNBVGY3TQOJQGEZDGNBVGY3TQOJQ" 1111111109 1111111109 1111111109 =
      Except.ok "081804" ∧
    generate_totp "GEZDGNBVGY3TQOJQGEZDGNBVGY3TQOJQ" 1111111111 1111111111 1111111111 =
      Except.ok "050471" ∧
    generate_totp "GEZDGNBVGY3TQOJQGEZDGNBVGY3TQOJQ" 1234567890 1234567890 1234567890 =
      Except.ok "005924" ∧
    generate_totp "GEZDGNBVGY3TQOJQGEZDGNBVGY3TQOJQ" 2000000000 2000000000 2000000000 =
      Except.ok "279037" ∧
    generate_totp "GEZDGNBVGY3TQOJQGEZDGNBVGY3TQOJQ" 20000000000 20000000000 20000000000 =
      Except.ok "353130" := by
  refine ⟨?_, ?_, ?_, ?_, ?_, ?_⟩ <;> rw [generate_totp_same_reads, decode_rfc_seed]
  · exact congrArg Except.ok totp_code_t59
  · exact congrArg Except.ok totp_code_t1111111109
  · exact congrArg Except.ok totp_code_t1111111111
  · exact congrArg Except.ok totp_code_t1234567890
  · exact congrArg Except.ok totp_code_t2000000000
  · exact congrArg Except.ok totp_code_t20000000000

/-- C1: decrypting an encryption of `data` under the same password returns
exactly `data`: the version byte prepended by `encrypt_data` passes the
version check and is stripped again by `decrypt_data`.  The hypotheses are
the AEAD contract of `Aes256Gcm`: cipher construction succeeds, and
decryption with the same key, nonce and associated data inverts
encryption. -/
theorem encrypt_decrypt_roundtrip (A : Aead) (kdf : String → List Nat → List Nat)
    (salt nonce data : List Nat) (password : String)
    (hnew : ∀ k, A.newOk k = true)
    (hdec : ∀ k n aad m ct, A.enc k n aad m = some ct → A.dec k n aad ct = some m)
    (henc : ∃ ct, A.enc (kdf password salt) nonce salt
      (CURRENT_DATA_FORMAT_VERSION :: data) = some ct) :
    ∃ e, (encrypt_data A kdf salt nonce data password).1 = Except.ok e ∧
      (decrypt_data A kdf e password).1 = Except.ok data := by
  obtain ⟨ct, hct⟩ := henc
  refine ⟨⟨nonce, ct, salt⟩, ?_, ?_⟩
  · simp [encrypt_data, hnew, hct]
  · have hd := hdec _ _ _ _ _ hct
    simp [decrypt_data, hnew, hd, CURRENT_DATA_FORMAT_VERSION]

/-- C1 witness: with a concrete (trivially correct) cipher, a concrete
payload round-trips. -/
theorem encrypt_decrypt_roundtrip_witness :
    ∃ e, (encrypt_data ⟨fun _ => true, fun _ _ _ m => some m, fun _ _ _ c => some c⟩
        (fun _ _ => List.replicate 32 0) [7, 7] [8, 8] [1, 2, 3] "pw").1 = Except.ok e ∧
      (decrypt_data ⟨fun _ => true, fun _ _ _ m => some m, fun _ _ _ c => some c⟩
        (fun _ _ => List.replicate 32 0) e "pw").1 = Except.ok [1, 2, 3] := by
  refine encrypt_decrypt_roundtrip _ _ _ _ _ _ (fun _ => rfl) ?_ ⟨_, rfl⟩
  intro k n aad m ct h
  injection h with h
  rw [← h]

/-- C2 (refuting the every-path-scrub claim): when the AEAD operation
fails, both codec functions return through the `?`/`map_err` early-return
before the `secure_erase` call (crypto.rs:79 and crypto.rs:104), so the
derived key is not erased on exactly the AEAD-failure paths — the `false`
scrub flag below.  Decryption failure is the wrong-password path, so the
most common error path returns with the key intact. -/
theorem key_not_scrubbed_on_aead_failure :
    (decrypt_data ⟨fun _ => true, fun _ _ _ _ => none, fun _ _ _ _ => none⟩
        (fun _ _ => List.replicate 32 7) ⟨[0], [1], [2]⟩ "wrong password")
      = (Except.error CryptoError.decryptFailed, false) ∧
    (encrypt_data ⟨fun _ => true, fun _ _ _ _ => none, fun _ _ _ _ => none⟩
        (fun _ _ => List.replicate 32 7) [2] [0] [9] "pw")
      = (Except.error CryptoError.encryptFailed, false) ∧
    (decrypt_data ⟨fun _ => true, fun _ _ _ _ => none, fun _ _ _ _ => some [9]⟩
        (fun _ _ => List.replicate 32 7) ⟨[0], [1], [2]⟩ "right password")
      = (Except.error CryptoError.unsupportedVersion, true) :=
  ⟨rfl, rfl, rfl⟩

/-- C4: whenever the AEAD authenticates and decrypts successfully (so in
particular with the correct password), `decrypt_data` still fails — with an
error distinct from the authentication error — if the plaintext is empty
or its leading version byte is not the supported version 1; and on success
it strips the version byte, returning exactly the remaining payload. -/
theorem decrypt_data_version_guard (A : Aead) (kdf : String → List Nat → List Nat)
    (encrypted : EncryptedData) (password : String) (pt : List Nat)
    (hnew : A.newOk (kdf password encrypted.salt) = true)
    (hdec : A.dec (kdf password encrypted.salt) encrypted.nonce encrypted.salt
      encrypted.ciphertext = some pt) :
    (pt = [] →
      (decrypt_data A kdf encrypted password).1 = Except.error CryptoError.emptyPlaintext) ∧
    (∀ v rest, pt = v :: rest → v ≠ CURRENT_DATA_FORMAT_VERSION →
      (decrypt_data A kdf encrypted password).1 = Except.error CryptoError.unsupportedVersion) ∧
    (∀ rest, pt = CURRENT_DATA_FORMAT_VERSION :: rest →
      (decrypt_data A kdf encrypted password).1 = Except.ok rest) ∧
    CryptoError.emptyPlaintext ≠ CryptoError.decryptFailed ∧
    CryptoError.unsupportedVersion ≠ CryptoError.decryptFailed := by
  refine ⟨?_, ?_, ?_, by decide, by decide⟩
  · intro h
    subst h
    simp [decrypt_data, hnew, hdec]
  · intro v rest h hv
    subst h
    simp [decrypt_data, hnew, hdec, hv]
  · intro rest h
    subst h
    simp [decrypt_data, hnew, hdec, CURRENT_DATA_FORMAT_VERSION]

/-- C4 witness: with the correct password (the AEAD succeeds), a plaintext
starting with version byte 2 is rejected as unsupported-format, an empty
plaintext as empty, and a version-1 plaintext is returned stripped. -/
theorem decrypt_data_version_guard_witness :
    (decrypt_data ⟨fun _ => true, fun _ _ _ _ => none, fun _ _ _ _ => some [2, 5]⟩
        (fun _ _ => []) ⟨[0], [1], [2]⟩ "pw").1 = Except.error CryptoError.unsupportedVersion ∧
    (decrypt_data ⟨fun _ => true, fun _ _ _ _ => none, fun _ _ _ _ => some []⟩
        (fun _ _ => []) ⟨[0], [1], [2]⟩ "pw").1 = Except.error CryptoError.emptyPlaintext ∧
    (decrypt_data ⟨fun _ => true, fun _ _ _ _ => none, fun _ _ _ _ => some [1, 5, 6]⟩
        (fun _ _ => []) ⟨[0], [1], [2]⟩ "pw").1 = Except.ok [5, 6] :=
  ⟨((decrypt_data_version_guard _ _ _ _ [2, 5] rfl rfl).2.1) 2 [5] rfl (by decide),
   ((decrypt_data_version_guard _ _ _ _ [] rfl rfl).1) rfl,
   ((decrypt_data_version_guard _ _ _ _ [1, 5, 6] rfl rfl).2.2.1) [5, 6] rfl⟩

/-- C5: `generate_motp` hashes (UTF-8 seed ‖ lowercase-hex of
`unix_seconds / 10`) with SHA-256, reads the first 3 digest bytes as a
big-endian integer, and renders it as exactly 6 lowercase hex digits. -/
theorem generate_motp_spec (secret : String) (now : Nat) :
    ∃ b0 b1 b2 rest,
      sha256 (utf8Bytes secret ++ utf8Bytes (String.mk (hexRep (now / 10)))) =
        b0 :: b1 :: b2 :: rest ∧
      generate_motp secret now = Except.ok (hexPad6 (b0 * 65536 + b1 * 256 + b2)) ∧
      (hexPad6 (b0 * 65536 + b1 * 256 + b2)).length = 6 ∧
      ∀ c ∈ (hexPad6 (b0 * 65536 + b1 * 256 + b2)).data, c ∈ lowercaseHexDigits := by
  obtain ⟨b0, b1, b2, rest, hsh, h0, h1, h2⟩ :=
    sha256_shape (utf8Bytes secret ++ utf8Bytes (String.mk (hexRep (now / 10))))
  have hval : b0 * 65536 + b1 * 256 + b2 < 16 ^ 6 := by
    have hp : (16 : Nat) ^ 6 = 16777216 := by norm_num
    omega
  refine ⟨b0, b1, b2, rest, hsh, ?_, hexPad6_length hval, fun c hc => hexPad6_mem c hc⟩
  show Except.ok (hexPad6
    (((sha256 (utf8Bytes secret ++ utf8Bytes (String.mk (hexRep (now / 10))))).take 3).foldl
      (fun acc x => (acc <<< 8) ||| x) 0)) = _
  rw [hsh]
  have hfold : ((b0 :: b1 :: b2 :: rest).take 3).foldl (fun acc x => (acc <<< 8) ||| x) 0 =
      b0 * 65536 + b1 * 256 + b2 :=
    calc ((b0 :: b1 :: b2 :: rest).take 3).foldl (fun acc x => (acc <<< 8) ||| x) 0
        = ((((0 <<< 8) ||| b0) <<< 8 ||| b1) <<< 8) ||| b2 := rfl
      _ = ((b0 <<< 8) ||| b1) <<< 8 ||| b2 := by rw [Nat.zero_shiftLeft, Nat.zero_or]
      _ = ((b0 * 256 + b1) <<< 8) ||| b2 := by rw [shiftLeft8_or_eq b0 b1 h1]
      _ = (b0 * 256 + b1) * 256 + b2 := shiftLeft8_or_eq _ _ h2
      _ = b0 * 65536 + b1 * 256 + b2 := by ring
  rw [hfold]

/-- C6: every record `parse_otpauth_url` accepts satisfies the store
invariant — the counter is present exactly when the algorithm is HOTP, and
the secret text is non-empty. -/
theorem parse_otpauth_url_invariant (u : UrlParts) (s : Secret)
    (h : parse_otpauth_url u = Except.ok s) :
    (s.counter ≠ none ↔ s.auth_type = AuthType.Hotp) ∧ s.secret ≠ "" := by
  unfold parse_otpauth_url at h
  repeat' split at h
  all_goals try simp only at h
  all_goals try (repeat' split at h)
  all_goals
    first
      | exact Except.noConfusion h
      | (injection h with h2
         subst h2
         simp_all)

/-- C6 witness: a concrete accepted TOTP URL yields a record satisfying
the invariant. -/
theorem parse_otpauth_url_invariant_witness :
    ((⟨"gh", "JBSWY3DP", AuthType.Totp, none⟩ : Secret).counter ≠ none ↔
      (⟨"gh", "JBSWY3DP", AuthType.Totp, none⟩ : Secret).auth_type = AuthType.Hotp) ∧
    (⟨"gh", "JBSWY3DP", AuthType.Totp, none⟩ : Secret).secret ≠ "" :=
  parse_otpauth_url_invariant
    ⟨"otpauth", some "totp", "/gh", [("secret", "JBSWY3DP")]⟩
    ⟨"gh", "JBSWY3DP", AuthType.Totp, none⟩ (by rfl)
